import Mathlib

/-!
Verification development for the Spark_Everlasting repository
(`src/Hierarchical Objects - Copy/main.js` and the near-duplicate
variant `src/unnamed/part_000`, a WebGL starfield + articulated
"ballerina" demo).

The transform-stack, star-field and animation state machinery is
shallowly embedded below.  JavaScript numbers are modelled as exact
rationals (`ℚ`) where the code only does field arithmetic and
comparisons, and as reals (`ℝ`) where trigonometric functions
(`Math.sin` / `Math.cos`) appear.  `Math.random()` values are passed
in explicitly (the spec's own design note asks for an injectable
random source); each value is assumed to lie in `[0, 1)` exactly as
`Math.random` guarantees.
-/

namespace Spark

/-! ## Matrices and the transform stack (main.js lines 235-256) -/

/-- 4×4 real matrix, the type of `modelMatrix` and of the entries of the
matrix stack `MS`. -/
abbrev Mat4 := Matrix (Fin 4) (Fin 4) ℝ

/-- Modelled from the spec: the `translate` helper of the MV.js library is
not under `src/`; the spec says `translate(x,y,z)` right-multiplies the
current matrix by "the corresponding elementary transform", i.e. the
standard affine translation matrix. -/
noncomputable def translateMat (x y z : ℝ) : Mat4 :=
  !![1, 0, 0, x;
     0, 1, 0, y;
     0, 0, 1, z;
     0, 0, 0, 1]

/-- Modelled from the spec: the `rotate` helper of the MV.js library is not
under `src/`; the spec says `rotate(angleDegrees, axis)` right-multiplies by
the corresponding elementary rotation, i.e. the axis-angle (Rodrigues)
rotation about the normalised axis, with the angle given in degrees. -/
noncomputable def rotateMat (θ x y z : ℝ) : Mat4 :=
  let r := θ * Real.pi / 180
  let c := Real.cos r
  let s := Real.sin r
  let d := Real.sqrt (x ^ 2 + y ^ 2 + z ^ 2)
  let ux := x / d
  let uy := y / d
  let uz := z / d
  !![c + ux ^ 2 * (1 - c), ux * uy * (1 - c) - uz * s, ux * uz * (1 - c) + uy * s, 0;
     uy * ux * (1 - c) + uz * s, c + uy ^ 2 * (1 - c), uy * uz * (1 - c) - ux * s, 0;
     uz * ux * (1 - c) - uy * s, uz * uy * (1 - c) + ux * s, c + uz ^ 2 * (1 - c), 0;
     0, 0, 0, 1]

/-- Modelled from the spec: the `scale` helper of the MV.js library is not
under `src/`; it is the elementary diagonal scaling matrix. -/
noncomputable def scaleMat (sx sy sz : ℝ) : Mat4 :=
  !![sx, 0, 0, 0;
     0, sy, 0, 0;
     0, 0, sz, 0;
     0, 0, 0, 1]

/-- The global mutable state touched by `gPush` / `gPop` /
`gTranslate` / `gRotate` / `gScale`: the current model matrix
(`modelMatrix`, `none` models the JavaScript value `undefined`)
and the matrix stack (`MS`).  Stack entries are likewise `Option`s
because `MS.push(modelMatrix)` stores whatever `modelMatrix` holds. -/
structure GState where
  current : Option Mat4
  stack : List (Option Mat4)

/-- `function gPush() { MS.push(modelMatrix); }` — the stack stores the
value of `modelMatrix`; all later writes to `modelMatrix` in the source
are reassignments (`modelMatrix = mult(...)`, which allocates a fresh
matrix), so the stored entry is a snapshot that cannot be mutated
afterwards, which this value-semantics embedding captures. -/
def gPush (s : GState) : GState :=
  ⟨s.current, s.current :: s.stack⟩

/-- `function gPop() { modelMatrix = MS.pop(); }` — JavaScript
`Array.prototype.pop` on an empty array returns `undefined` (here
`none`) and leaves the array empty; there is no check and no exception. -/
def gPop (s : GState) : GState :=
  match s.stack with
  | [] => ⟨none, []⟩
  | m :: rest => ⟨m, rest⟩

/-- `modelMatrix = mult(modelMatrix, translate([x, y, z]))`.  (When
`modelMatrix` is `undefined` the JavaScript would throw inside `mult`;
the claims only exercise defined states, `Option.map` keeps the
embedding total.) -/
noncomputable def gTranslate (x y z : ℝ) (s : GState) : GState :=
  ⟨s.current.map (fun m => m * translateMat x y z), s.stack⟩

/-- `modelMatrix = mult(modelMatrix, rotate(theta, [x, y, z]))`. -/
noncomputable def gRotate (θ x y z : ℝ) (s : GState) : GState :=
  ⟨s.current.map (fun m => m * rotateMat θ x y z), s.stack⟩

/-- `modelMatrix = mult(modelMatrix, scale(sx, sy, sz))`. -/
noncomputable def gScale (sx sy sz : ℝ) (s : GState) : GState :=
  ⟨s.current.map (fun m => m * scaleMat sx sy sz), s.stack⟩

/-! ## Draw-command traces

Each drawing routine of the source emits a linear sequence of calls to
the transform stack and the primitive renderer; we record that sequence
as a list of commands and interpret it over `GState`. -/

/-- The four unit primitives of the backend. -/
inductive Prim where
  | sphere
  | cube
  | cone
  | cyl

/-- One call emitted by a drawing routine.  `α` is the scalar type of
the arguments (`ℝ` for the main variant, whose angles involve
`Math.sin`; `ℚ` for the discrete-phase variant). -/
inductive GCmd (α : Type) where
  | push
  | pop
  | xlate (x y z : α)
  | rot (θ x y z : α)
  | scal (sx sy sz : α)
  | color (r g b a : α)
  | drawPrim (p : Prim)

/-- Interpret one command over the transform-stack state.  `setColor`
and the `drawX` functions read `modelMatrix` but do not write it or the
stack. -/
noncomputable def exec (s : GState) : GCmd ℝ → GState
  | .push => gPush s
  | .pop => gPop s
  | .xlate x y z => gTranslate x y z s
  | .rot θ x y z => gRotate θ x y z s
  | .scal sx sy sz => gScale sx sy sz s
  | .color _ _ _ _ => s
  | .drawPrim _ => s

/-- Run a whole trace. -/
noncomputable def execList (s : GState) (l : List (GCmd ℝ)) : GState :=
  l.foldl exec s

/-- Number of `push` commands in a trace. -/
def pushCount {α : Type} (l : List (GCmd α)) : ℕ :=
  l.countP fun c => match c with | GCmd.push => true | _ => false

/-- Number of `pop` commands in a trace. -/
def popCount {α : Type} (l : List (GCmd α)) : ℕ :=
  l.countP fun c => match c with | GCmd.pop => true | _ => false

/-! ## The Star class (main.js lines 69-129) -/

/-- Per-star state: `this.x`, `this.y`, `this.velocity`, `this.scale`. -/
structure Star where
  x : ℚ
  y : ℚ
  velocity : ℚ
  scale : ℚ
deriving DecidableEq

/-- `Star.reset()`: each `rᵢ` stands for one `Math.random()` draw
(`r₁` for `x`, `r₂` for `y`, `r₃` for `velocity`, `r₄` for `scale`),
in the order the source calls them. -/
def Star.reset (r₁ r₂ r₃ r₄ : ℚ) : Star :=
  { x := -6 + r₁ * 12
    y := -6 + r₂ * 12
    velocity := 0.5 + r₃ * 0.2
    scale := 0.02 + r₄ * (0.05 - 0.02) }

/-- `Star.update(dt)`: the source first assigns
`this.x += this.velocity * dt; this.y += this.velocity * dt` and then
tests the updated values; here the moved values are written inline.
`r₁` is the branch draw (`Math.random() < 0.5`), `r₂` the coordinate
draw of the taken branch. -/
def Star.update (dt r₁ r₂ : ℚ) (s : Star) : Star :=
  if s.x + s.velocity * dt > 10 ∨ s.y + s.velocity * dt > 10 then
    if r₁ < 0.5 then
      { s with x := -6, y := -6 + r₂ * 12 }
    else
      { s with x := -6 + r₂ * 12, y := -6 }
  else
    { s with x := s.x + s.velocity * dt, y := s.y + s.velocity * dt }

/-- `updateStars(dt)`: `stars.forEach(star => star.update(dt))`, the
random stream threaded as one pair per star (a star that does not
respawn simply leaves its pair unused). -/
def updateStars (dt : ℚ) (r : ℕ → ℚ × ℚ) : List Star → List Star
  | [] => []
  | s :: rest => Star.update dt (r 0).1 (r 0).2 s :: updateStars dt (fun n => r (n + 1)) rest

/-- `Star.draw()` (main.js lines 102-111): push, translate to
`(x, y, -10)`, set colour, uniform scale, draw a sphere, pop. -/
noncomputable def starDrawTrace (s : Star) : List (GCmd ℝ) :=
  [GCmd.push,
   GCmd.xlate (s.x : ℝ) (s.y : ℝ) (-10),
   GCmd.color 0.9 0.85 0.75 1,
   GCmd.scal (s.scale : ℝ) (s.scale : ℝ) (s.scale : ℝ),
   GCmd.drawPrim Prim.sphere,
   GCmd.pop]

/-- Concatenated traces of `stars.forEach(star => star.draw())`. -/
noncomputable def starsTraces : List Star → List (GCmd ℝ)
  | [] => []
  | s :: rest => starDrawTrace s ++ starsTraces rest

/-- `drawStars()` (main.js lines 124-129): push, translate by the eye
position, draw every star, pop. -/
noncomputable def drawStarsTrace (ex ey ez : ℝ) (stars : List Star) : List (GCmd ℝ) :=
  GCmd.push :: GCmd.xlate ex ey ez :: (starsTraces stars ++ [GCmd.pop])

/-! ## The Ballerina class of main.js (lines 261-489) -/

/-- The sinusoidal limb-angle formulas of `drawArms` / `drawLegs`
(`this.time` is the accumulated animation clock `t`). -/
noncomputable def armSwingLeft (t : ℝ) : ℝ := 12 * Real.sin (t * 2)

/-- `-12 * Math.sin(this.time * 2)`, the right-arm swing. -/
noncomputable def armSwingRight (t : ℝ) : ℝ := -12 * Real.sin (t * 2)

/-- `const hipBend = -10 * Math.sin(this.time * 2)` (right hip). -/
noncomputable def hipBend (t : ℝ) : ℝ := -10 * Real.sin (t * 2)

/-- `const hipBendL = -10 * Math.sin(this.time * 2)` (left hip). -/
noncomputable def hipBendL (t : ℝ) : ℝ := -10 * Real.sin (t * 2)

/-- The angle passed to the left-hip `gRotate(hipBendL - 1, -1, 0, 0)`;
note the rotation axis is `(-1, 0, 0)`. -/
noncomputable def leftHipRotationArg (t : ℝ) : ℝ := hipBendL t - 1

/-- The angle passed to the right-hip `gRotate(-hipBend, 1, 0, 0)`;
note the rotation axis is `(1, 0, 0)`. -/
noncomputable def rightHipRotationArg (t : ℝ) : ℝ := -(hipBend t)

/-- `const kneeBendL = -3*Math.max(10, 25 * Math.sin(this.time * 2))`. -/
noncomputable def kneeBendL (t : ℝ) : ℝ := -3 * max 10 (25 * Real.sin (t * 2))

/-- `const kneeBendR = -3*Math.max(10, 25 * Math.cos(this.time * 2))`. -/
noncomputable def kneeBendR (t : ℝ) : ℝ := -3 * max 10 (25 * Real.cos (t * 2))

/-- The fields of the main-variant `Ballerina` set in its constructor. -/
structure BallerinaR where
  position : ℝ × ℝ × ℝ
  basePosition : ℝ × ℝ × ℝ
  scale : ℝ
  time : ℝ
  rotationAngle : ℝ
  rotationSpeed : ℝ

/-- `Ballerina.drawHead()`: head sphere, neck cone, back-of-head
sphere, hair-bun sphere, tiara cube — five balanced push/pop blocks. -/
noncomputable def drawHeadTrace (b : BallerinaR) : List (GCmd ℝ) :=
  [GCmd.push,
   GCmd.color 1 0.8 0.6 1,
   GCmd.xlate 0 (1.3 * b.scale) 0.03,
   GCmd.scal (0.35 * b.scale) (0.36 * b.scale) (0.35 * b.scale),
   GCmd.drawPrim Prim.sphere,
   GCmd.pop,
   GCmd.push,
   GCmd.color 1 0.8 0.6 1,
   GCmd.xlate 0 (0.8 * b.scale) 0,
   GCmd.scal (0.5 * b.scale) (0.5 * b.scale) (0.3 * b.scale),
   GCmd.rot (-90) 1 0 0,
   GCmd.drawPrim Prim.cone,
   GCmd.pop,
   GCmd.push,
   GCmd.color 0.4 0.2 0.1 1,
   GCmd.xlate 0 (1.3 * b.scale) 0,
   GCmd.scal (0.35 * b.scale) (0.35 * b.scale) (0.35 * b.scale),
   GCmd.drawPrim Prim.sphere,
   GCmd.pop,
   GCmd.push,
   GCmd.color 0.4 0.2 0.1 1,
   GCmd.xlate 0 (1.6 * b.scale) (-0.06 * b.scale),
   GCmd.scal (0.3 * b.scale) (0.3 * b.scale) (0.3 * b.scale),
   GCmd.drawPrim Prim.sphere,
   GCmd.pop,
   GCmd.push,
   GCmd.color 0.7 0.5 0.9 1,
   GCmd.xlate 0 (1.5 * b.scale) (0.2 * b.scale),
   GCmd.scal (0.25 * b.scale) (0.10 * b.scale) (0.04 * b.scale),
   GCmd.drawPrim Prim.cube,
   GCmd.pop]

/-- `Ballerina.drawBody()`: upper-torso cone and lower-torso/tutu cone. -/
noncomputable def drawBodyTrace (b : BallerinaR) : List (GCmd ℝ) :=
  [GCmd.push,
   GCmd.color 0.7 0.5 0.9 1,
   GCmd.xlate 0 (0.1 * b.scale) 0,
   GCmd.rot 90 1 0 0,
   GCmd.scal (0.5 * b.scale) (0.4 * b.scale) (1 * b.scale),
   GCmd.drawPrim Prim.cone,
   GCmd.pop,
   GCmd.push,
   GCmd.color 0.7 0.5 0.9 1,
   GCmd.xlate 0.05 (-0.45 * b.scale) 0,
   GCmd.rot (-90) 1 0 0,
   GCmd.scal (1.75 * b.scale) (1.75 * b.scale) (1 * b.scale),
   GCmd.drawPrim Prim.cone,
   GCmd.pop]

/-- `Ballerina.drawArms()`: left and right arm cubes, each with the
fixed ±45° pose rotation followed by the time-driven swing rotation. -/
noncomputable def drawArmsTrace (b : BallerinaR) : List (GCmd ℝ) :=
  [GCmd.push,
   GCmd.color 1 0.8 0.6 1,
   GCmd.xlate (-(0.8 * b.scale)) (0.2 * b.scale) 0,
   GCmd.rot (-45) 0 0 1,
   GCmd.rot (armSwingLeft b.time) 1 0 0,
   GCmd.scal (0.06 * b.scale) (0.6 * b.scale) (0.13 * b.scale),
   GCmd.drawPrim Prim.cube,
   GCmd.pop,
   GCmd.push,
   GCmd.color 1 0.8 0.6 1,
   GCmd.xlate (0.8 * b.scale) (0.2 * b.scale) 0,
   GCmd.rot 45 0 0 1,
   GCmd.rot (armSwingRight b.time) 1 0 0,
   GCmd.scal (0.06 * b.scale) (0.6 * b.scale) (0.13 * b.scale),
   GCmd.drawPrim Prim.cube,
   GCmd.pop]

/-- `Ballerina.drawLegs()`: two hierarchical legs, each thigh → shin →
boot with three nested pushes closed by three pops
(`legLength = 0.5 * this.scale`). -/
noncomputable def drawLegsTrace (b : BallerinaR) : List (GCmd ℝ) :=
  [GCmd.color 1 0.8 0.6 1,
   GCmd.push,
   GCmd.xlate (-(0.25 * b.scale)) (-(1.4 * b.scale)) (-0.1),
   GCmd.rot 0 (-10) 0 1,
   GCmd.rot (leftHipRotationArg b.time) (-1) 0 0,
   GCmd.scal (0.15 * b.scale) (0.5 * b.scale) (0.12 * b.scale),
   GCmd.drawPrim Prim.cube,
   GCmd.push,
   GCmd.xlate 0 (-(0.5 * b.scale) - 1) (-0.1),
   GCmd.rot 0 (-15) 0 1,
   GCmd.rot (-(kneeBendL b.time)) 1 0 0,
   GCmd.scal 1 1.3 0.75,
   GCmd.drawPrim Prim.cube,
   GCmd.push,
   GCmd.color 1 0.71 0.76 1,
   GCmd.xlate 0 (-(0.5 * b.scale) - 0.5) (0.06 * b.scale + 1),
   GCmd.scal 1 0.2 0.5,
   GCmd.drawPrim Prim.cube,
   GCmd.pop,
   GCmd.pop,
   GCmd.pop,
   GCmd.color 1 0.8 0.6 1,
   GCmd.push,
   GCmd.xlate (0.2 * b.scale) (-(1.4 * b.scale)) (-0.2),
   GCmd.rot (-1) (-10) 0 0,
   GCmd.rot (rightHipRotationArg b.time) 1 0 0,
   GCmd.scal (0.15 * b.scale) (0.5 * b.scale) (0.12 * b.scale),
   GCmd.drawPrim Prim.cube,
   GCmd.push,
   GCmd.xlate 0 (-(0.5 * b.scale) - 1) (-0.1),
   GCmd.rot 0 15 0 1,
   GCmd.rot (-(kneeBendR b.time)) 1 0 0,
   GCmd.scal 1 1.3 0.75,
   GCmd.drawPrim Prim.cube,
   GCmd.push,
   GCmd.color 1 0.71 0.76 1,
   GCmd.xlate 0 (-(0.5 * b.scale) - 0.5) (0.06 * b.scale + 1),
   GCmd.scal 1 0.2 0.5,
   GCmd.drawPrim Prim.cube,
   GCmd.pop,
   GCmd.pop,
   GCmd.pop]

/-- `Ballerina.render()`: one outer push, the root translate/rotate,
the whole part hierarchy, one outer pop. -/
noncomputable def renderTraceB (b : BallerinaR) : List (GCmd ℝ) :=
  GCmd.push ::
  GCmd.xlate b.position.1 b.position.2.1 b.position.2.2 ::
  GCmd.rot b.rotationAngle 0 1 0 ::
  (drawHeadTrace b ++ drawBodyTrace b ++ drawArmsTrace b ++ drawLegsTrace b ++ [GCmd.pop])

/-- All stack-touching commands of one `render(timestamp)` call of
main.js, in order: `drawStars()` (`eye` is `(0, 0, 10)` at that point)
followed by `ballerina.render()`.  `updateStars`, `updateCamera` and
`ballerina.update` touch neither `modelMatrix` nor `MS`. -/
noncomputable def frameTrace (stars : List Star) (b : BallerinaR) : List (GCmd ℝ) :=
  drawStarsTrace 0 0 10 stars ++ renderTraceB b

/-- The transform-stack state established at the top of `render`:
`MS = []; modelMatrix = mat4();` (the identity). -/
noncomputable def frameInit : GState := ⟨some 1, []⟩

/-! ## The frame driver of main.js (lines 179-187 and 519-560) -/

/-- The global frame-driver state read and written by `render` and the
animation-toggle click handler: the flags, `dt`, `prevTime`, the star
pool, and the time-driven scalar state of the ballerina and camera. -/
structure World where
  animFlag : Bool
  resetTimerFlag : Bool
  dt : ℚ
  prevTime : ℚ
  stars : List Star
  btime : ℚ
  brotationAngle : ℚ
  cameraAngle : ℚ
deriving DecidableEq

/-- The value `dt` holds after the timing block of `render(timestamp)`:
`if (animFlag) { dt = (timestamp - prevTime) / 1000.0; prevTime = timestamp; }`
— when `animFlag` is false, `dt` is left at whatever it already was. -/
def dtUsed (w : World) (timestamp : ℚ) : ℚ :=
  if w.animFlag then (timestamp - w.prevTime) / 1000 else w.dt

/-- One `render(timestamp)` call as a state transition (drawing
omitted; see `frameTrace` for the draw commands): the timing block,
`updateStars(dt)`, `updateCamera(dt)` (`cameraAngle += dt * 0.5`),
`ballerina.update(dt)` (`this.time += dt; this.rotationAngle += 360 * dt * 0`).
`render` never reads `resetTimerFlag`. -/
def renderStep (w : World) (timestamp : ℚ) (r : ℕ → ℚ × ℚ) : World :=
  { w with
    dt := dtUsed w timestamp
    prevTime := if w.animFlag then timestamp else w.prevTime
    stars := updateStars (dtUsed w timestamp) r w.stars
    cameraAngle := w.cameraAngle + dtUsed w timestamp * 0.5
    btime := w.btime + dtUsed w timestamp
    brotationAngle := w.brotationAngle + 360 * dtUsed w timestamp * 0 }

/-- The `animToggleButton.onclick` handler: turning off only clears
`animFlag`; turning on sets `animFlag` and `resetTimerFlag` (and
requests a frame).  Nothing here touches `prevTime` or `dt`. -/
def toggleClick (w : World) : World :=
  if w.animFlag then
    { w with animFlag := false }
  else
    { w with animFlag := true, resetTimerFlag := true }

/-- A concrete paused state: the last enabled frame ran at timestamp
1000 ms (so `prevTime = 1000`), then the animation was off. -/
def pausedWorld : World :=
  { animFlag := false
    resetTimerFlag := false
    dt := 1 / 60
    prevTime := 1000
    stars := []
    btime := 0
    brotationAngle := -35
    cameraAngle := 0 }

/-- A concrete frozen state for the animation-freeze claim: animation
off, `dt` still at its initial value `0`, one in-bounds star. -/
def frozenWorld : World :=
  { animFlag := false
    resetTimerFlag := false
    dt := 0
    prevTime := 0
    stars := [⟨1, 2, 3 / 5, 1 / 25⟩]
    btime := 0
    brotationAngle := -35
    cameraAngle := 0 }

/-! ## The Ballerina class of the unnamed variant (part_000 lines 256-291) -/

/-- Fields of the discrete-phase `Ballerina` of `src/unnamed/part_000`. -/
structure Ballerina2 where
  position : ℚ × ℚ × ℚ
  scale : ℚ
  time : ℚ
  phase : ℕ
  legRotation : ℚ
deriving DecidableEq

/-- `constructor(position, scale = 1.0)`: `time = 0.0`, `phase = 0`,
`legRotation = 0`. -/
def mkBallerina2 (p : ℚ × ℚ × ℚ) (sc : ℚ) : Ballerina2 :=
  { position := p, scale := sc, time := 0, phase := 0, legRotation := 0 }

/-- `update(dt)` of the unnamed variant: `this.time += dt`, and once
the accumulated time exceeds 2 the phase cycles mod 3 and the clock
resets to 0.  No other field is written. -/
def Ballerina2.update (dt : ℚ) (b : Ballerina2) : Ballerina2 :=
  if b.time + dt > 2 then
    { b with time := 0, phase := (b.phase + 1) % 3 }
  else
    { b with time := b.time + dt }

/-- Fold `update` over a list of frame deltas. -/
def applyUpdates2 (dts : List ℚ) (b : Ballerina2) : Ballerina2 :=
  dts.foldl (fun b d => Ballerina2.update d b) b

/-- `drawLegs()` of the unnamed variant: one cube rotated by
`this.legRotation` about `(1, 0, 0)`. -/
def drawLegsTrace2 (b : Ballerina2) : List (GCmd ℚ) :=
  [GCmd.push,
   GCmd.color 1 0.8 0.8 1,
   GCmd.xlate 0 (-1.2) 0,
   GCmd.rot b.legRotation 1 0 0,
   GCmd.scal 0.2 1 0.2,
   GCmd.drawPrim Prim.cube,
   GCmd.pop]

/-- `render()` of the unnamed variant: push, root translate, uniform
scale, `drawLegs`, pop. -/
def renderTrace2 (b : Ballerina2) : List (GCmd ℚ) :=
  GCmd.push ::
  GCmd.xlate b.position.1 b.position.2.1 b.position.2.2 ::
  GCmd.scal b.scale b.scale b.scale ::
  (drawLegsTrace2 b ++ [GCmd.pop])

/-! ## Helper lemmas -/

theorem pushCount_append {α : Type} (l₁ l₂ : List (GCmd α)) :
    pushCount (l₁ ++ l₂) = pushCount l₁ + pushCount l₂ := by
  unfold pushCount
  rw [List.countP_append]

theorem popCount_append {α : Type} (l₁ l₂ : List (GCmd α)) :
    popCount (l₁ ++ l₂) = popCount l₁ + popCount l₂ := by
  unfold popCount
  rw [List.countP_append]

theorem pushCount_starsTraces (l : List Star) : pushCount (starsTraces l) = l.length := by
  induction l with
  | nil => rfl
  | cons s rest ih =>
    have h : pushCount (starDrawTrace s) = 1 := rfl
    unfold starsTraces
    rw [pushCount_append, ih, h, List.length_cons]
    omega

theorem popCount_starsTraces (l : List Star) : popCount (starsTraces l) = l.length := by
  induction l with
  | nil => rfl
  | cons s rest ih =>
    have h : popCount (starDrawTrace s) = 1 := rfl
    unfold starsTraces
    rw [popCount_append, ih, h, List.length_cons]
    omega

theorem execList_append (s : GState) (l₁ l₂ : List (GCmd ℝ)) :
    execList s (l₁ ++ l₂) = execList (execList s l₁) l₂ := by
  unfold execList
  rw [List.foldl_append]

theorem exec_starDrawTrace (s : GState) (st : Star) :
    execList s (starDrawTrace st) = s := rfl

theorem execList_starsTraces : ∀ (l : List Star) (s : GState),
    execList s (starsTraces l) = s := by
  intro l
  induction l with
  | nil => intro s; rfl
  | cons a rest ih =>
    intro s
    unfold starsTraces
    rw [execList_append, exec_starDrawTrace]
    exact ih s

theorem execList_drawStarsTrace (ex ey ez : ℝ) (stars : List Star) (s : GState) :
    execList s (drawStarsTrace ex ey ez stars) = s := by
  unfold drawStarsTrace
  have h : (GCmd.push :: GCmd.xlate ex ey ez :: (starsTraces stars ++ [GCmd.pop]) : List (GCmd ℝ))
      = [GCmd.push, GCmd.xlate ex ey ez] ++ starsTraces stars ++ [GCmd.pop] := by simp
  rw [h, execList_append, execList_append, execList_starsTraces]
  rfl

theorem execList_renderTraceB (b : BallerinaR) (s : GState) :
    execList s (renderTraceB b) = s := rfl

theorem star_update_zero (s : Star) (r₁ r₂ : ℚ) (h1 : s.x ≤ 10) (h2 : s.y ≤ 10) :
    Star.update 0 r₁ r₂ s = s := by
  unfold Star.update
  have hx : s.x + s.velocity * 0 = s.x := by ring
  have hy : s.y + s.velocity * 0 = s.y := by ring
  simp only [hx, hy]
  rw [if_neg (by push_neg; exact ⟨h1, h2⟩)]

theorem updateStars_zero : ∀ (l : List Star) (r : ℕ → ℚ × ℚ),
    (∀ s ∈ l, s.x ≤ 10 ∧ s.y ≤ 10) → updateStars 0 r l = l := by
  intro l
  induction l with
  | nil => intro r _; rfl
  | cons a rest ih =>
    intro r h
    unfold updateStars
    rw [star_update_zero a _ _ (h a (List.mem_cons_self a rest)).1
        (h a (List.mem_cons_self a rest)).2,
      ih (fun n => r (n + 1)) (fun s hs => h s (List.mem_cons_of_mem a hs))]

theorem ballerina2_update_preserves (dt : ℚ) (b : Ballerina2) :
    (Ballerina2.update dt b).position = b.position ∧
    (Ballerina2.update dt b).scale = b.scale ∧
    (Ballerina2.update dt b).legRotation = b.legRotation := by
  unfold Ballerina2.update
  split <;> exact ⟨rfl, rfl, rfl⟩

theorem applyUpdates2_preserves (dts : List ℚ) : ∀ b : Ballerina2,
    (applyUpdates2 dts b).position = b.position ∧
    (applyUpdates2 dts b).scale = b.scale ∧
    (applyUpdates2 dts b).legRotation = b.legRotation := by
  induction dts with
  | nil => intro b; exact ⟨rfl, rfl, rfl⟩
  | cons d rest ih =>
    intro b
    have h1 := ballerina2_update_preserves d b
    have h2 := ih (Ballerina2.update d b)
    exact ⟨h2.1.trans h1.1, h2.2.1.trans h1.2.1, h2.2.2.trans h1.2.2⟩

theorem renderTrace2_congr (b b' : Ballerina2) (hp : b.position = b'.position)
    (hs : b.scale = b'.scale) (hl : b.legRotation = b'.legRotation) :
    renderTrace2 b = renderTrace2 b' := by
  unfold renderTrace2 drawLegsTrace2
  rw [hp, hs, hl]

/-! ## Claim theorems -/

/-- C1: for every full frame render of main.js (the star field drawn by
`drawStars` followed by the ballerina's whole part hierarchy), the
number of `gPush` calls equals the number of `gPop` calls, and running
the frame's commands from the frame-start state (`MS = []`,
`modelMatrix` the identity) leaves the stack depth equal to its depth
at the start of the frame. -/
theorem frame_stack_balanced (stars : List Star) (b : BallerinaR) :
    pushCount (frameTrace stars b) = popCount (frameTrace stars b) ∧
    (execList frameInit (frameTrace stars b)).stack.length = frameInit.stack.length := by
  have h1 : pushCount (renderTraceB b) = 16 := rfl
  have h2 : popCount (renderTraceB b) = 16 := rfl
  have e : drawStarsTrace 0 0 10 stars
      = [GCmd.push, GCmd.xlate 0 0 10] ++ starsTraces stars ++ [GCmd.pop] := by
    unfold drawStarsTrace
    simp
  have c1 : pushCount ([GCmd.push, GCmd.xlate 0 0 10] : List (GCmd ℝ)) = 1 := rfl
  have c2 : pushCount ([GCmd.pop] : List (GCmd ℝ)) = 0 := rfl
  have c3 : popCount ([GCmd.push, GCmd.xlate 0 0 10] : List (GCmd ℝ)) = 0 := rfl
  have c4 : popCount ([GCmd.pop] : List (GCmd ℝ)) = 1 := rfl
  have h3 : pushCount (drawStarsTrace 0 0 10 stars) = stars.length + 1 := by
    rw [e, pushCount_append, pushCount_append, pushCount_starsTraces, c1, c2]
    omega
  have h4 : popCount (drawStarsTrace 0 0 10 stars) = stars.length + 1 := by
    rw [e, popCount_append, popCount_append, popCount_starsTraces, c3, c4]
    omega
  constructor
  · unfold frameTrace
    rw [pushCount_append, popCount_append, h1, h2, h3, h4]
  · unfold frameTrace
    rw [execList_append, execList_drawStarsTrace, execList_renderTraceB]

/-- C2: for every current-matrix value `M` (and any stack contents),
`gPush`, `gTranslate(1,0,0)`, `gRotate(90,0,0,1)`, `gPop` leaves the
current model matrix exactly equal to `M`: the push saves a snapshot
that the later mutations cannot affect, and the pop restores it. -/
theorem push_transform_pop_restores (M : Mat4) (st : List (Option Mat4)) :
    gPop (gRotate 90 0 0 1 (gTranslate 1 0 0 (gPush ⟨some M, st⟩))) = ⟨some M, st⟩ := rfl

/-- C3 counterexample: `gPop` on an empty stack does not fail: it
silently sets the current model matrix to `undefined` (here `none`, an
invalid value) and leaves the stack empty, contradicting the claim that
an empty-stack pop fails fast and never silently leaves the current
matrix invalid. -/
theorem gPop_empty_counterexample :
    (gPop ⟨some 1, []⟩).current = none ∧ (gPop ⟨some 1, []⟩).stack = [] := ⟨rfl, rfl⟩

/-- C3 amended: calling `gPop` with an empty transform stack does not
fail fast; `Array.prototype.pop` returns `undefined`, so the current
model matrix is silently set to an invalid value (`none`) and the stack
stays empty. -/
theorem gPop_empty_silent (s : GState) (h : s.stack = []) : gPop s = ⟨none, []⟩ := by
  unfold gPop
  rw [h]

theorem gPop_empty_silent_witness :
    (GState.mk (some 1) []).stack = [] ∧ gPop ⟨some 1, []⟩ = ⟨none, []⟩ :=
  ⟨rfl, gPop_empty_silent ⟨some 1, []⟩ rfl⟩

/-- C4 counterexample: in a state with `animFlag` off but a stale
nonzero `dt` (reachable: pausing never resets `dt`, and one queued
frame still runs after the toggle), the frame callback uses that
nonzero `dt` and the star positions change, contradicting the claim
that `dt` is held at zero whenever the toggle is off. -/
theorem anim_off_stale_dt_counterexample :
    dtUsed (World.mk false false 1 0 [Star.mk 0 0 (3 / 5) (1 / 25)] 0 (-35) 0) 5 ≠ 0 ∧
    (renderStep (World.mk false false 1 0 [Star.mk 0 0 (3 / 5) (1 / 25)] 0 (-35) 0) 5
        (fun _ => (0, 0))).stars ≠
      (World.mk false false 1 0 [Star.mk 0 0 (3 / 5) (1 / 25)] 0 (-35) 0).stars := by
  constructor
  · norm_num [dtUsed]
  · norm_num [renderStep, dtUsed, updateStars, Star.update]

/-- C4 amended: when `animFlag` is false the frame callback never reads
the timestamp, so two calls from the same state with different
timestamps produce identical figure pose and star positions; but `dt`
is merely left unchanged, not held at zero — only if the retained `dt`
is already `0` (e.g. animation never ran) is the state frozen
(`renderStep` is then the identity, given the stars are inside the
respawn boundary as every updated star is). -/
theorem anim_off_timestamp_independent (w : World) (t₁ t₂ : ℚ) (r : ℕ → ℚ × ℚ)
    (hoff : w.animFlag = false) (hb : ∀ s ∈ w.stars, s.x ≤ 10 ∧ s.y ≤ 10) :
    renderStep w t₁ r = renderStep w t₂ r ∧
    (w.dt = 0 → renderStep w t₁ r = w) := by
  obtain ⟨af, rf, d, pt, st, bt, br, ca⟩ := w
  subst hoff
  constructor
  · simp [renderStep, dtUsed]
  · intro h0
    subst h0
    simp [renderStep, dtUsed, updateStars_zero st r hb]

theorem anim_off_timestamp_independent_witness :
    renderStep frozenWorld 3 (fun _ => (0, 0)) = renderStep frozenWorld 7 (fun _ => (0, 0)) ∧
    (frozenWorld.dt = 0 → renderStep frozenWorld 3 (fun _ => (0, 0)) = frozenWorld) :=
  anim_off_timestamp_independent frozenWorld 3 7 (fun _ => (0, 0)) rfl (by norm_num [frozenWorld])

/-- C5: evaluating the code at the failing input.  From a paused state
whose last enabled frame ran at timestamp 1000 ms, clicking the toggle
(which sets `resetTimerFlag` but leaves `prevTime` untouched — `render`
never reads `resetTimerFlag`) and rendering the first resumed frame at
timestamp 6000 ms yields `dt = 5` seconds: exactly the wall-clock
interval elapsed while paused, contradicting the claim that the
previous-frame timestamp is reset on resume. -/
theorem resume_dt_spike :
    (toggleClick pausedWorld).animFlag = true ∧
    (toggleClick pausedWorld).resetTimerFlag = true ∧
    (toggleClick pausedWorld).prevTime = 1000 ∧
    dtUsed (toggleClick pausedWorld) 6000 = 5 ∧
    (renderStep (toggleClick pausedWorld) 6000 (fun _ => (0, 0))).dt = 5 := by
  refine ⟨rfl, rfl, rfl, ?_, ?_⟩
  · norm_num [dtUsed, toggleClick, pausedWorld]
  · norm_num [renderStep, dtUsed, toggleClick, pausedWorld]

/-- C6: whenever the moved position of a star exceeds the boundary
(`x > 10` or `y > 10`), one `Star.update` call respawns it at a screen
edge: left edge (`x = -6`, `y` in `[-6, 6]`) when the branch draw is
below `0.5`, bottom edge (`y = -6`, `x` in `[-6, 6]`) otherwise; a star
not exceeding the boundary keeps its moved position. -/
theorem star_update_boundary (s : Star) (dt r₁ r₂ : ℚ) (h₀ : 0 ≤ r₂) (h₁ : r₂ < 1) :
    ((s.x + s.velocity * dt > 10 ∨ s.y + s.velocity * dt > 10) →
      (r₁ < 0.5 → (Star.update dt r₁ r₂ s).x = -6 ∧
        -6 ≤ (Star.update dt r₁ r₂ s).y ∧ (Star.update dt r₁ r₂ s).y ≤ 6) ∧
      (¬ r₁ < 0.5 → (Star.update dt r₁ r₂ s).y = -6 ∧
        -6 ≤ (Star.update dt r₁ r₂ s).x ∧ (Star.update dt r₁ r₂ s).x ≤ 6)) ∧
    (¬ (s.x + s.velocity * dt > 10 ∨ s.y + s.velocity * dt > 10) →
      (Star.update dt r₁ r₂ s).x = s.x + s.velocity * dt ∧
      (Star.update dt r₁ r₂ s).y = s.y + s.velocity * dt) := by
  unfold Star.update
  constructor
  · intro h
    rw [if_pos h]
    constructor
    · intro hr
      rw [if_pos hr]
      exact ⟨rfl, by show -6 ≤ -6 + r₂ * 12; linarith, by show -6 + r₂ * 12 ≤ 6; linarith⟩
    · intro hr
      rw [if_neg hr]
      exact ⟨rfl, by show -6 ≤ -6 + r₂ * 12; linarith, by show -6 + r₂ * 12 ≤ 6; linarith⟩
  · intro h
    rw [if_neg h]
    exact ⟨rfl, rfl⟩

theorem star_update_boundary_witness :
    (Star.update 0 (1 / 4) (1 / 2) ⟨101 / 10, 0, 3 / 5, 1 / 25⟩).x = -6 :=
  (((star_update_boundary ⟨101 / 10, 0, 3 / 5, 1 / 25⟩ 0 (1 / 4) (1 / 2)
      (by norm_num) (by norm_num)).1 (by norm_num)).1 (by norm_num)).1

/-- C7: for every random-source value in `[0, 1)`, `Star.reset` places
`x` and `y` in `[-6, 6]`, `velocity` in `[0.5, 0.7]` and the render
scale in `[0.02, 0.05]`. -/
theorem star_reset_ranges (r₁ r₂ r₃ r₄ : ℚ)
    (h₁ : 0 ≤ r₁) (h₁' : r₁ < 1) (h₂ : 0 ≤ r₂) (h₂' : r₂ < 1)
    (h₃ : 0 ≤ r₃) (h₃' : r₃ < 1) (h₄ : 0 ≤ r₄) (h₄' : r₄ < 1) :
    -6 ≤ (Star.reset r₁ r₂ r₃ r₄).x ∧ (Star.reset r₁ r₂ r₃ r₄).x ≤ 6 ∧
    -6 ≤ (Star.reset r₁ r₂ r₃ r₄).y ∧ (Star.reset r₁ r₂ r₃ r₄).y ≤ 6 ∧
    0.5 ≤ (Star.reset r₁ r₂ r₃ r₄).velocity ∧ (Star.reset r₁ r₂ r₃ r₄).velocity ≤ 0.7 ∧
    0.02 ≤ (Star.reset r₁ r₂ r₃ r₄).scale ∧ (Star.reset r₁ r₂ r₃ r₄).scale ≤ 0.05 := by
  unfold Star.reset
  dsimp only
  refine ⟨?_, ?_, ?_, ?_, ?_, ?_, ?_, ?_⟩ <;> linarith

theorem star_reset_ranges_witness :
    -6 ≤ (Star.reset (1 / 2) (1 / 2) (1 / 2) (1 / 2)).x ∧
    (Star.reset (1 / 2) (1 / 2) (1 / 2) (1 / 2)).x ≤ 6 ∧
    -6 ≤ (Star.reset (1 / 2) (1 / 2) (1 / 2) (1 / 2)).y ∧
    (Star.reset (1 / 2) (1 / 2) (1 / 2) (1 / 2)).y ≤ 6 ∧
    0.5 ≤ (Star.reset (1 / 2) (1 / 2) (1 / 2) (1 / 2)).velocity ∧
    (Star.reset (1 / 2) (1 / 2) (1 / 2) (1 / 2)).velocity ≤ 0.7 ∧
    0.02 ≤ (Star.reset (1 / 2) (1 / 2) (1 / 2) (1 / 2)).scale ∧
    (Star.reset (1 / 2) (1 / 2) (1 / 2) (1 / 2)).scale ≤ 0.05 :=
  star_reset_ranges (1 / 2) (1 / 2) (1 / 2) (1 / 2)
    (by norm_num) (by norm_num) (by norm_num) (by norm_num)
    (by norm_num) (by norm_num) (by norm_num) (by norm_num)

/-- C8: `Star.update` never modifies a star's velocity or scale, on any
call and in every branch (including the edge-respawn branch). -/
theorem star_update_preserves_velocity_scale (dt r₁ r₂ : ℚ) (s : Star) :
    (Star.update dt r₁ r₂ s).velocity = s.velocity ∧
    (Star.update dt r₁ r₂ s).scale = s.scale := by
  unfold Star.update
  split
  · split <;> exact ⟨rfl, rfl⟩
  · exact ⟨rfl, rfl⟩

/-- C9 counterexample: at `t = 0` the angle argument of the left-hip
rotation is `-1` while the right-hip argument is `0`; they are neither
negations of each other nor equal (equality is what "negation" amounts
to after accounting for the opposite rotation axes `(-1,0,0)` vs
`(1,0,0)`), so the left and right hip swing angles are not in
anti-phase. -/
theorem hip_antiphase_counterexample :
    leftHipRotationArg 0 ≠ -(rightHipRotationArg 0) ∧
    leftHipRotationArg 0 ≠ rightHipRotationArg 0 := by
  unfold leftHipRotationArg rightHipRotationArg hipBend hipBendL
  norm_num [Real.sin_zero]

/-- C9 amended: the arm swing angles are pure functions of the
accumulated time with left and right arms in exact anti-phase
(`12·sin 2t` and its negation), but the leg hip angle arguments are not
negations of each other: they sum to the constant `-1` (and the left
one is applied about the axis `(-1,0,0)`, the right about `(1,0,0)`, so
the two hips actually swing in phase, offset by one degree). -/
theorem limb_phase_relation (t : ℝ) :
    armSwingLeft t = 12 * Real.sin (2 * t) ∧
    armSwingRight t = -(armSwingLeft t) ∧
    leftHipRotationArg t + rightHipRotationArg t = -1 := by
  unfold armSwingLeft armSwingRight leftHipRotationArg rightHipRotationArg hipBend hipBendL
  exact ⟨by rw [mul_comm t 2], by ring, by ring⟩

/-- C10: in the unnamed discrete-phase variant, `legRotation` is `0`
after construction and is preserved by every `update` (which only
changes `time` and `phase`), so the rotation applied in `drawLegs` is
always `0` degrees and `render` emits the same command trace in all
phases and at all times. -/
theorem legRotation_invariant (p : ℚ × ℚ × ℚ) (sc : ℚ) (dts : List ℚ) :
    (applyUpdates2 dts (mkBallerina2 p sc)).legRotation = 0 ∧
    renderTrace2 (applyUpdates2 dts (mkBallerina2 p sc)) = renderTrace2 (mkBallerina2 p sc) := by
  have h := applyUpdates2_preserves dts (mkBallerina2 p sc)
  exact ⟨h.2.2, renderTrace2_congr _ _ h.1 h.2.1 h.2.2⟩

end Spark
